import Mathlib

set_option autoImplicit false

/-!
Shallow embedding of the identity / token-lifecycle / ownership /
rate-limiting core of the `hackathon-2-todo-app` repository (a FastAPI +
SQLModel todo application), together with proofs about it.

The embedded sources are:
  * `phase-II/backend/src/auth/security.py` (token issuance and verification),
  * `phase-IV/backend/src/auth/middleware.py` (the JWT auth middleware),
  * `phase-III/backend/src/api/v1/tasks.py` (the task routes),
  * `phase-IV/backend/src/services/task_service.py` (the task service),
  * `phase-IV/backend/src/utils/validators.py` (payload validators),
  * `phase-III/backend/src/core/rate_limiting.py` (the rate limiter).
-/

/-- A JSON-style claim value as it occurs in the JWT payloads of this
application: either a string or an integer (timestamps are modelled as
integer epoch seconds, as produced by `datetime.utcnow()`). -/
inductive CVal where
  | s (v : String)
  | n (v : Int)
deriving DecidableEq

/-- A Python dict of JWT claims, modelled as an insertion-ordered association
list.  Lookup returns the first binding of a key; any dict that actually
arises in Python has unique keys. -/
abbrev Claims := List (String × CVal)

/-- Dict lookup, `d.get(k)`. -/
def dictGet : Claims → String → Option CVal
  | [], _ => none
  | p :: m, k => if p.1 = k then some p.2 else dictGet m k

/-- Dict membership, `k in d`. -/
def dictHas (m : Claims) (k : String) : Bool :=
  (dictGet m k).isSome

/-- Dict write, `d[k] = v` (also the effect of `d.update(...)` on one key):
replaces the value in place when the key is present, otherwise appends the
new binding, matching the insertion-order semantics of Python dicts. -/
def dictSet (m : Claims) (k : String) (v : CVal) : Claims :=
  if dictHas m k then m.map (fun p => if p.1 = k then (k, v) else p)
  else m ++ [(k, v)]

/-- The Python exceptions the embedded code can raise. -/
inductive PyExn where
  | valueError (msg : String)
  | nameError (missing : String)
  | typeError
  | jwtError
  | permissionError (msg : String)
  | integrityError
deriving DecidableEq

/-- The names actually imported from `src.core.logging` by
`phase-II/backend/src/auth/security.py` (its line 11).  The module also
references `log_security_event`, which is **not** in this list, so evaluating
a call to it raises `NameError` at run time. -/
def securityImports : List String :=
  ["log_operation", "log_token_validation_result", "log_token_lifecycle_event"]

/-- Evaluate a module-level logging call inside `security.py`: the logging
helpers themselves never throw, so the call succeeds exactly when the name is
bound in the module, and raises `NameError` otherwise. -/
def callLog (fname : String) : Except PyExn Unit :=
  if fname ∈ securityImports then Except.ok () else Except.error (PyExn.nameError fname)

/-- Modelled from the spec: the wire form of a credential (TokenCodec, spec
section 4.1).  The `jose` JWT library used by `security.py` is external to
this repository, so the codec is modelled from the specification: `encode`
produces a signed three-segment token carrying the claims set losslessly, and
anything else a client may present is opaque garbage.  `raw` covers arbitrary
client-supplied strings, `signed` covers the output of
`jwt.encode(claims, secret, algorithm)`. -/
inductive TokenString where
  | raw (text : String)
  | signed (claims : Claims) (secret : String)
deriving DecidableEq

/-- `not token or len(token) == 0`: whether the token string is empty.  An
encoded JWT is never empty. -/
def TokenString.isEmptyStr : TokenString → Bool
  | .raw text => text.isEmpty
  | .signed _ _ => false

/-- `len(token.split('.'))`: for any string this is one more than its number
of dots, and an encoded JWT always has exactly three dot-free base64url
segments. -/
def TokenString.numParts : TokenString → Nat
  | .raw text => (text.toList.filter (fun c => c = '.')).length + 1
  | .signed _ _ => 3

/-- Modelled from the spec: `TokenCodec.decode` (spec section 4.1) — the
`jose` call `jwt.decode(token, secret, algorithms=[...])`.  It raises
`JWTError` when the input is not a validly signed token for the given secret,
and otherwise returns the claims set losslessly.  Temporal validation is
performed by the caller (spec section 4.2 step 4), matching the explicit
expiry check inside `verify_token`. -/
def jwtDecode (token : TokenString) (secret : String) : Except PyExn Claims :=
  match token with
  | .raw _ => Except.error PyExn.jwtError
  | .signed c s => if s = secret then Except.ok c else Except.error PyExn.jwtError

/-- Lines 22-25 of `security.py`: if a `user_id` claim is supplied it must be
a string (`isinstance` check) that is non-empty and at most 255 characters
(Python `len` counts characters). -/
def checkSubject (data : Claims) : Except PyExn Unit :=
  match dictGet data "user_id" with
  | none => Except.ok ()
  | some (CVal.n _) =>
      Except.error (PyExn.valueError
        "Invalid user_id: must be a non-empty string with max 255 characters")
  | some (CVal.s uid) =>
      if uid.length = 0 ∨ uid.length > 255 then
        Except.error (PyExn.valueError
          "Invalid user_id: must be a non-empty string with max 255 characters")
      else Except.ok ()

/-- Lines 27-33 of `security.py`: a supplied `role` claim must be the string
`"user"` or `"admin"`.  Faithful detail: the rejection branch first calls
`log_security_event` (line 32), which is not imported in this module, so the
branch raises `NameError` before ever reaching the intended `ValueError` of
line 33. -/
def checkRole (data : Claims) : Except PyExn Unit :=
  match dictGet data "role" with
  | none => Except.ok ()
  | some r =>
      if r = CVal.s "user" ∨ r = CVal.s "admin" then Except.ok ()
      else
        match callLog "log_security_event" with
        | Except.error e => Except.error e
        | Except.ok _ =>
            Except.error (PyExn.valueError
              "Invalid role: only user and admin roles are allowed")

/-- Lines 35-38 of `security.py`: `if expires_delta:` is a truthiness test on
the `timedelta`, so an explicit zero delta falls back to the configured
default `settings.JWT_EXPIRATION_DELTA` just like `None` does. -/
def tokenExpiry (now defaultTtl : Int) (expires_delta : Option Int) : Int :=
  match expires_delta with
  | some d => if d = 0 then now + defaultTtl else now + d
  | none => now + defaultTtl

/-- Lines 40-46 of `security.py`: the encoded payload is the caller data plus
the computed `exp` and the freshly stamped `iat` and `nbf` fields. -/
def tokenPayload (now : Int) (data : Claims) (expire : Int) : Claims :=
  dictSet (dictSet (dictSet data "exp" (CVal.n expire)) "iat" (CVal.n now))
    "nbf" (CVal.n now)

/-- `create_access_token` (`phase-II/backend/src/auth/security.py`, lines
15-55).  `now` is `datetime.utcnow()` as epoch seconds, `defaultTtl` is
`settings.JWT_EXPIRATION_DELTA`, `expires_delta` the optional `timedelta`
argument in seconds, `secret` is `settings.SECRET_KEY`.  The two trailing
logging calls use imported helpers and therefore succeed. -/
def create_access_token (now defaultTtl : Int) (secret : String)
    (data : Claims) (expires_delta : Option Int) : Except PyExn TokenString :=
  match checkSubject data with
  | Except.error e => Except.error e
  | Except.ok _ =>
    match checkRole data with
    | Except.error e => Except.error e
    | Except.ok _ =>
      let to_encode := tokenPayload now data (tokenExpiry now defaultTtl expires_delta)
      match callLog "log_operation" with
      | Except.error e => Except.error e
      | Except.ok _ =>
        match callLog "log_token_validation_result" with
        | Except.error e => Except.error e
        | Except.ok _ => Except.ok (TokenString.signed to_encode secret)

/-- The tail of the `try` block of `verify_token` (lines 88-91): log the
successful validation (imported helper) and return the payload. -/
def verifySuccess (payload : Claims) : Except PyExn (Option Claims) :=
  match callLog "log_token_lifecycle_event" with
  | Except.error e => Except.error e
  | Except.ok _ => Except.ok (some payload)

/-- The `try` block of `verify_token` (`security.py`, lines 62-91).  Faithful
details: the empty-token and malformed-token branches call the unimported
`log_security_event` before returning, so they raise `NameError`; the expiry
branch uses the imported `log_token_validation_result` and returns `None`;
`if exp_time:` is a truthiness test, so a zero `exp` skips the temporal
check, and a non-empty string `exp` would make `current_time >= exp_time`
raise `TypeError`. -/
def verifyTokenTry (now : Int) (secret : String) (token : TokenString) :
    Except PyExn (Option Claims) :=
  if token.isEmptyStr then
    match callLog "log_security_event" with
    | Except.error e => Except.error e
    | Except.ok _ => Except.ok none
  else if token.numParts ≠ 3 then
    match callLog "log_security_event" with
    | Except.error e => Except.error e
    | Except.ok _ => Except.ok none
  else
    match jwtDecode token secret with
    | Except.error e => Except.error e
    | Except.ok payload =>
      match dictGet payload "exp" with
      | some (CVal.n exp_time) =>
          if exp_time = 0 then verifySuccess payload
          else if now ≥ exp_time then
            match callLog "log_token_validation_result" with
            | Except.error e => Except.error e
            | Except.ok _ => Except.ok none
          else verifySuccess payload
      | some (CVal.s v) =>
          if v.isEmpty then verifySuccess payload else Except.error PyExn.typeError
      | none => verifySuccess payload

/-- Both `except` blocks of `verify_token` (lines 92-99): each first logs
through the imported `log_token_validation_result` and then calls the
unimported `log_security_event`, so each handler itself raises `NameError`
instead of reaching its `return None`. -/
def verifyExceptBlock : Except PyExn (Option Claims) :=
  match callLog "log_token_validation_result" with
  | Except.error e => Except.error e
  | Except.ok _ =>
    match callLog "log_security_event" with
    | Except.error e => Except.error e
    | Except.ok _ => Except.ok none

/-- `verify_token` (`phase-II/backend/src/auth/security.py`, lines 58-99).
The `except JWTError` and `except Exception` handlers have the same observable
behaviour (see `verifyExceptBlock`), and `except Exception` also catches the
`NameError` raised inside the `try` block. -/
def verify_token (now : Int) (secret : String) (token : TokenString) :
    Except PyExn (Option Claims) :=
  match verifyTokenTry now secret token with
  | Except.ok r => Except.ok r
  | Except.error _ => verifyExceptBlock

/-- `validate_token_not_expired` (`security.py`, lines 208-225): a payload
without `exp` (`is None` check, not truthiness) is reported as expired
(`False`); otherwise the result is `current_time < exp_time`.  The logging
helpers on this path are imported, so nothing raises for numeric payloads; a
string-valued `exp` would make the comparison raise `TypeError`. -/
def validate_token_not_expired (now : Int) (payload : Claims) : Except PyExn Bool :=
  match dictGet payload "exp" with
  | none => Except.ok false
  | some (CVal.n exp_time) => Except.ok (decide (now < exp_time))
  | some (CVal.s _) => Except.error PyExn.typeError

/-- An inbound HTTP request as seen by `JWTMiddleware.dispatch`
(`phase-IV/backend/src/auth/middleware.py`): the URL path, the HTTP method
and the optional `Authorization` header value. -/
structure MwRequest where
  path : String
  method : String
  authHeader : Option String
deriving DecidableEq

/-- The observable outcome of one `dispatch` call. -/
inductive MwOutcome where
  /-- The request was forwarded to `call_next`, i.e. the route handler runs
  (for authenticated requests the middleware also attaches the user state to
  the request first). -/
  | forwarded
  /-- An `HTTPException(status_code, detail)` short-circuited the request
  before any handler logic; `wwwAuth` records whether the
  `WWW-Authenticate: Bearer` response header was set. -/
  | httpError (statusCode : Nat) (detail : String) (wwwAuth : Bool)
  /-- A non-HTTP exception escaped the middleware. -/
  | raised (e : PyExn)
deriving DecidableEq

/-- The `public_routes` list of `JWTMiddleware.dispatch` (middleware.py,
lines 23-30), verbatim. -/
def public_routes : List String :=
  ["/", "/docs", "/redoc", "/openapi.json", "/health", "/api/v1/login",
   "/api/v1/register"]

/-- Python `path.startswith(route)`, modelled structurally on the character
lists of the two strings. -/
def pyStartsWith (path route : String) : Bool :=
  route.toList.isPrefixOf path.toList

/-- Line 33 of middleware.py:
`any(request.url.path.startswith(route) for route in public_routes)`. -/
def is_public_route (path : String) : Bool :=
  public_routes.any (fun route => pyStartsWith path route)

/-- `JWTMiddleware.dispatch` (`phase-IV/backend/src/auth/middleware.py`,
lines 21-92).  The token verifier is passed as a parameter: the module
imports `verify_token` from a `src/auth/security.py` that phase-IV does not
ship, and no property proved below depends on it.  `now` is
`datetime.utcnow()` as epoch seconds.  Faithful details: the header is split
on a single space and must unpack into exactly two parts (`ValueError`
otherwise, caught and turned into a 401); the trailing expiry double-check
uses the same `if exp_time:` truthiness test as `verify_token`. -/
def JWTMiddleware.dispatch (verify : String → Option Claims) (now : Int)
    (req : MwRequest) : MwOutcome :=
  if req.method = "OPTIONS" ∨ is_public_route req.path then
    MwOutcome.forwarded
  else
    match req.authHeader with
    | none => MwOutcome.httpError 401 "Authorization header is missing" true
    | some auth_header =>
      match auth_header.splitOn " " with
      | [scheme, token] =>
          if scheme.toLower ≠ "bearer" then
            MwOutcome.httpError 401 "Authorization scheme must be Bearer" true
          else
            match verify token with
            | none => MwOutcome.httpError 401 "Invalid or expired token" true
            | some payload =>
                match dictGet payload "exp" with
                | some (CVal.n exp_time) =>
                    if exp_time ≠ 0 ∧ now ≥ exp_time then
                      MwOutcome.httpError 401 "Token has expired" true
                    else MwOutcome.forwarded
                | some (CVal.s v) =>
                    if v.isEmpty then MwOutcome.forwarded
                    else MwOutcome.raised PyExn.typeError
                | none => MwOutcome.forwarded
      | _ => MwOutcome.httpError 401 "Invalid authorization header format" true

/-- A row of the `task` table (`src/models/task.py`).  `created_at` and
`updated_at` are epoch-second instants stamped at insertion time (the model
declares no automatic update of `updated_at`). -/
structure TaskRow where
  id : Nat
  title : String
  description : Option String
  completed : Bool
  user_id : String
  created_at : Int
  updated_at : Int
deriving DecidableEq

/-- The `TaskCreate` request payload (`src/models/task.py`): `user_id` is
optional so that clients need not supply it; whatever they do supply is
overridden by the route before the task is stored. -/
structure TaskCreate where
  title : String
  description : Option String
  completed : Bool
  user_id : Option String
deriving DecidableEq

/-- The `TaskUpdate` request payload.  A field is `none` when unset — the
service applies `task_update.dict(exclude_unset=True)` — and for
`description` the inner option distinguishes an explicit JSON `null` from an
omitted field. -/
structure TaskUpdate where
  title : Option String
  description : Option (Option String)
  completed : Option Bool
deriving DecidableEq

/-- The task table plus the autoincrement primary-key sequence. -/
structure Db where
  tasks : List TaskRow
  nextId : Nat
deriving DecidableEq

/-- `session.exec(select(TaskRow).where(TaskRow.id == task_id)).first()`. -/
def firstTaskWithId : List TaskRow → Nat → Option TaskRow
  | [], _ => none
  | t :: ts, i => if t.id = i then some t else firstTaskWithId ts i

/-- `session.delete(db_task)` for the row fetched by a primary-key query:
removes the first (and, `id` being the primary key, only) row with that id. -/
def removeFirstWithId : List TaskRow → Nat → List TaskRow
  | [], _ => []
  | t :: ts, i => if t.id = i then ts else t :: removeFirstWithId ts i

/-- Python truthiness of the optional `current_user_id` argument
(`if current_user_id:`): `None` and the empty string are falsy. -/
def strTruthy : Option String → Bool
  | none => false
  | some s => !s.isEmpty

/-- `TaskService.get_task_by_id`
(`phase-IV/backend/src/services/task_service.py`, lines 28-47). -/
def TaskService.get_task_by_id (db : Db) (task_id : Nat) : Option TaskRow :=
  firstTaskWithId db.tasks task_id

/-- The `setattr` loop of `TaskService.update_task` over
`task_update.dict(exclude_unset=True)`. -/
def applyTaskUpdate (u : TaskUpdate) (t : TaskRow) : TaskRow :=
  { t with
    title := match u.title with | some v => v | none => t.title
    description := match u.description with | some v => v | none => t.description
    completed := match u.completed with | some v => v | none => t.completed }

/-- The effect of mutating the ORM object fetched by primary key and
committing: the row with that id is replaced. -/
def writeTask (db : Db) (task_id : Nat) (t1 : TaskRow) : Db :=
  { db with tasks := db.tasks.map (fun t => if t.id = task_id then t1 else t) }

/-- `TaskService.update_task` (`task_service.py`, lines 108-145): `None` when
the task does not exist (checked first), `PermissionError` when a truthy
`current_user_id` is supplied and does not match the owner (the session is
rolled back, so the store is unchanged), otherwise the updated row. -/
def TaskService.update_task (db : Db) (task_id : Nat) (task_update : TaskUpdate)
    (current_user_id : Option String) : Except PyExn (Option TaskRow × Db) :=
  match TaskService.get_task_by_id db task_id with
  | none => Except.ok (none, db)
  | some db_task =>
      if strTruthy current_user_id ∧ some db_task.user_id ≠ current_user_id then
        Except.error (PyExn.permissionError "User does not own task")
      else
        let t1 := applyTaskUpdate task_update db_task
        Except.ok (some t1, writeTask db task_id t1)

/-- `TaskService.delete_task` (`task_service.py`, lines 147-177): `False`
when the task does not exist (checked first), `PermissionError` on an
ownership mismatch, otherwise the row is deleted. -/
def TaskService.delete_task (db : Db) (task_id : Nat)
    (current_user_id : Option String) : Except PyExn (Bool × Db) :=
  match TaskService.get_task_by_id db task_id with
  | none => Except.ok (false, db)
  | some db_task =>
      if strTruthy current_user_id ∧ some db_task.user_id ≠ current_user_id then
        Except.error (PyExn.permissionError "User does not own task")
      else
        Except.ok (true, { db with tasks := removeFirstWithId db.tasks task_id })

/-- `TaskService.toggle_task_completion` (`task_service.py`, lines 180-213):
`None` when the task does not exist (checked first), `PermissionError` on an
ownership mismatch, otherwise `completed` is negated and the row committed. -/
def TaskService.toggle_task_completion (db : Db) (task_id : Nat)
    (current_user_id : Option String) : Except PyExn (Option TaskRow × Db) :=
  match TaskService.get_task_by_id db task_id with
  | none => Except.ok (none, db)
  | some db_task =>
      if strTruthy current_user_id ∧ some db_task.user_id ≠ current_user_id then
        Except.error (PyExn.permissionError "User does not own task")
      else
        let t1 := { db_task with completed := !db_task.completed }
        Except.ok (some t1, writeTask db task_id t1)

/-- `TaskService.create_task` (`task_service.py`, lines 8-26): builds a
`TaskRow` from the payload fields (`TaskRow(**task_create.dict())`), inserts and
refreshes it.  The `task` table requires a non-null `user_id`, so a payload
without one fails at commit time (`IntegrityError`, re-raised after
rollback); the routes always set `user_id` before calling this. -/
def TaskService.create_task (db : Db) (now : Int) (tc : TaskCreate) :
    Except PyExn (TaskRow × Db) :=
  match tc.user_id with
  | none => Except.error PyExn.integrityError
  | some uid =>
      let t : TaskRow :=
        { id := db.nextId, title := tc.title, description := tc.description,
          completed := tc.completed, user_id := uid,
          created_at := now, updated_at := now }
      Except.ok (t, { tasks := db.tasks ++ [t], nextId := db.nextId + 1 })

/-- `validate_task_create` (`phase-IV/backend/src/utils/validators.py`; the
phase-III routes import the same `src.utils.validators` module path): returns
the detail string of the `HTTPException(400)` it raises, or `none` when the
payload passes.  `if not title or len(title.strip()) == 0` and the truthiness
test on `description` are kept (`len(title.strip()) == 0` holds exactly when
every character of the title is whitespace); `len` counts characters. -/
def validate_task_create (tc : TaskCreate) : Option String :=
  if tc.title.isEmpty ∨ tc.title.toList.all (fun c => c.isWhitespace) then
    some "Task title is required"
  else if tc.title.length > 255 then
    some "Task title must be 255 characters or less"
  else
    match tc.description with
    | some d =>
        if !d.isEmpty ∧ d.length > 1000 then
          some "Task description must be 1000 characters or less"
        else none
    | none => none

/-- The description clause of `validate_task_update`
(`task_update.description is not None and len(...) > 1000`). -/
def validateUpdateDescription (u : TaskUpdate) : Option String :=
  match u.description with
  | some (some d) =>
      if d.length > 1000 then
        some "Task description must be 1000 characters or less"
      else none
  | _ => none

/-- `validate_task_update` (`src/utils/validators.py`): a supplied title must
be non-empty and at most 255 characters; a supplied non-null description at
most 1000 characters. -/
def validate_task_update (u : TaskUpdate) : Option String :=
  match u.title with
  | some t =>
      if t.length = 0 then some "Task title cannot be empty"
      else if t.length > 255 then some "Task title must be 255 characters or less"
      else validateUpdateDescription u
  | none => validateUpdateDescription u

/-- The authenticated principal as resolved by the auth dependencies: `id` is
the `user_id` claim of the verified token (`get_current_user_id`), `role` the
`role` claim.  The task routes consume only `id`. -/
structure Principal where
  id : String
  role : String
deriving DecidableEq

/-- The observable outcome of one route handler call: the 2xx response value
or an `HTTPException(status_code, detail)`. -/
inductive RouteResult (α : Type) where
  | ok (v : α)
  | httpError (statusCode : Nat) (detail : String)
deriving DecidableEq

/-- The `create_task` route (`phase-III/backend/src/api/v1/tasks.py`, lines
14-44): overrides `task_create.user_id` with the authenticated user id,
validates the payload, then delegates to the service; any non-HTTP exception
becomes a 500 with the session rolled back. -/
def create_task_route (db : Db) (now : Int) (p : Principal)
    (task_create : TaskCreate) : RouteResult TaskRow × Db :=
  let tc := { task_create with user_id := some p.id }
  match validate_task_create tc with
  | some detail => (RouteResult.httpError 400 detail, db)
  | none =>
      match TaskService.create_task db now tc with
      | Except.error _ =>
          (RouteResult.httpError 500 "An error occurred while creating the task", db)
      | Except.ok (t, db1) => (RouteResult.ok t, db1)

/-- The `update_task` route (`phase-III/backend/src/api/v1/tasks.py`, lines
89-136): validates the payload, loads the task (404 when absent), compares
the owner against the authenticated user (403 on mismatch), and only then
lets the service apply the update (called without `current_user_id`). -/
def update_task_route (db : Db) (p : Principal) (task_id : Nat)
    (task_update : TaskUpdate) : RouteResult TaskRow × Db :=
  match validate_task_update task_update with
  | some detail => (RouteResult.httpError 400 detail, db)
  | none =>
    match TaskService.get_task_by_id db task_id with
    | none =>
        (RouteResult.httpError 404
          ("Task with id " ++ toString task_id ++ " not found"), db)
    | some existing_task =>
        if existing_task.user_id ≠ p.id then
          (RouteResult.httpError 403 "You can only update your own tasks", db)
        else
          match TaskService.update_task db task_id task_update none with
          | Except.error _ =>
              (RouteResult.httpError 500
                "An error occurred while updating the task", db)
          | Except.ok (none, db1) =>
              (RouteResult.httpError 404
                ("Task with id " ++ toString task_id ++ " not found"), db1)
          | Except.ok (some t, db1) => (RouteResult.ok t, db1)

/-- The `toggle_task_completion` route (`tasks.py`, lines 139-182): loads the
task (404 when absent), checks ownership (403 on mismatch), then lets the
service flip `completed`. -/
def toggle_task_route (db : Db) (p : Principal) (task_id : Nat) :
    RouteResult TaskRow × Db :=
  match TaskService.get_task_by_id db task_id with
  | none =>
      (RouteResult.httpError 404
        ("Task with id " ++ toString task_id ++ " not found"), db)
  | some existing_task =>
      if existing_task.user_id ≠ p.id then
        (RouteResult.httpError 403
          "You can only toggle completion status of your own tasks", db)
      else
        match TaskService.toggle_task_completion db task_id none with
        | Except.error _ =>
            (RouteResult.httpError 500
              "An error occurred while toggling the task", db)
        | Except.ok (none, db1) =>
            (RouteResult.httpError 404
              ("Task with id " ++ toString task_id ++ " not found"), db1)
        | Except.ok (some t, db1) => (RouteResult.ok t, db1)

/-- The `delete_task` route (`tasks.py`, lines 185-227): loads the task (404
when absent), checks ownership (403 on mismatch), then lets the service
delete the row (204, modelled as `ok ()`). -/
def delete_task_route (db : Db) (p : Principal) (task_id : Nat) :
    RouteResult Unit × Db :=
  match TaskService.get_task_by_id db task_id with
  | none =>
      (RouteResult.httpError 404
        ("Task with id " ++ toString task_id ++ " not found"), db)
  | some existing_task =>
      if existing_task.user_id ≠ p.id then
        (RouteResult.httpError 403 "You can only delete your own tasks", db)
      else
        match TaskService.delete_task db task_id none with
        | Except.error _ =>
            (RouteResult.httpError 500
              "An error occurred while deleting the task", db)
        | Except.ok (false, db1) =>
            (RouteResult.httpError 404
              ("Task with id " ++ toString task_id ++ " not found"), db1)
        | Except.ok (true, db1) => (RouteResult.ok (), db1)

/-- The Redis sorted sets used by the rate limiter, keyed by the literal key
strings the code builds.  Each member of the set
`rate_limit:{user}:{endpoint}:{window}` is `str(timestamp)` with the
timestamp as its score, so a set is modelled as the list of its scores
(`time.time()` floats, modelled as rationals).  `expire` only attaches a TTL
to the whole key and is not modelled: stale members are in any case evicted
by `zremrangebyscore` on every check. -/
structure RedisState where
  store : List (String × List ℚ)
deriving DecidableEq

/-- Lookup of one sorted set by key (an absent key is the empty set). -/
def zsetLookup : List (String × List ℚ) → String → List ℚ
  | [], _ => []
  | p :: rs, k => if p.1 = k then p.2 else zsetLookup rs k

/-- Replace the sorted set stored under one key. -/
def zsetWrite : List (String × List ℚ) → String → List ℚ → List (String × List ℚ)
  | [], k, v => [(k, v)]
  | p :: rs, k, v => if p.1 = k then (k, v) :: rs else p :: zsetWrite rs k v

/-- `zremrangebyscore(key, '0', current_time - window_seconds)`: removes the
members whose score lies in the closed interval from 0 to the cutoff. -/
def RedisState.zremrangebyscore (r : RedisState) (key : String) (maxScore : ℚ) :
    RedisState :=
  ⟨zsetWrite r.store key
    ((zsetLookup r.store key).filter (fun t => ¬ (0 ≤ t ∧ t ≤ maxScore)))⟩

/-- `zadd(key, {str(current_time): current_time})`: adds the member unless it
is already present (two calls with the same float timestamp collapse into one
member). -/
def RedisState.zaddTimestamp (r : RedisState) (key : String) (t : ℚ) : RedisState :=
  let l := zsetLookup r.store key
  ⟨zsetWrite r.store key (if t ∈ l then l else l ++ [t])⟩

/-- `zcard(key)`: the cardinality of the set. -/
def RedisState.zcard (r : RedisState) (key : String) : Nat :=
  (zsetLookup r.store key).length

/-- `RateLimiter._increment_counter`
(`phase-III/backend/src/core/rate_limiting.py`, lines 61-73): evict the
entries older than the window, record the current timestamp, and return the
resulting cardinality. -/
def increment_counter (r : RedisState) (key : String) (current_time : ℚ)
    (window_seconds : ℚ) : Nat × RedisState :=
  let r1 := r.zremrangebyscore key (current_time - window_seconds)
  let r2 := r1.zaddTimestamp key current_time
  (r2.zcard key, r2)

/-- The limit thresholds consulted via `limits.get(...)`. -/
structure Limits where
  requests_per_minute : Nat
  requests_per_hour : Nat
  requests_per_day : Nat
deriving DecidableEq

/-- `self.default_limits` of `RateLimiter.__init__`. -/
def default_limits : Limits :=
  { requests_per_minute := 100, requests_per_hour := 1000,
    requests_per_day := 10000 }

/-- The key strings built by `is_rate_limited`, e.g.
`f"rate_limit:{user_id}:{endpoint}:minute"`. -/
def rateKey (user_id endpoint window : String) : String :=
  "rate_limit:" ++ user_id ++ ":" ++ endpoint ++ ":" ++ window

/-- `RateLimiter.is_rate_limited`
(`phase-III/backend/src/core/rate_limiting.py`, lines 23-59):
unauthenticated principals (empty or `"unknown"` user id) are admitted
without touching any counter; otherwise the minute, hour and day windows are
checked in that order, each by evict-record-count, returning `True` on the
first window whose post-record count strictly exceeds its threshold and
skipping the remaining windows. -/
def is_rate_limited (r : RedisState) (user_id endpoint : String) (now : ℚ)
    (limits : Limits) : Bool × RedisState :=
  if user_id.isEmpty ∨ user_id = "unknown" then (false, r)
  else
    let pm := increment_counter r (rateKey user_id endpoint "minute") now 60
    if pm.1 > limits.requests_per_minute then (true, pm.2)
    else
      let ph := increment_counter pm.2 (rateKey user_id endpoint "hour") now 3600
      if ph.1 > limits.requests_per_hour then (true, ph.2)
      else
        let pd := increment_counter ph.2 (rateKey user_id endpoint "day") now 86400
        (pd.1 > limits.requests_per_day, pd.2)

/-- Run a sequence of requests (one `is_rate_limited` check per timestamp,
default limits) through the limiter, collecting the decisions. -/
def runRequests (r : RedisState) (user_id endpoint : String) :
    List ℚ → List Bool × RedisState
  | [] => ([], r)
  | t :: ts =>
      let step := is_rate_limited r user_id endpoint t default_limits
      let rest := runRequests step.2 user_id endpoint ts
      (step.1 :: rest.1, rest.2)

/-! Helper lemmas about the embedded primitives. -/

theorem callLog_log_operation : callLog "log_operation" = Except.ok () := rfl

theorem callLog_log_token_validation_result :
    callLog "log_token_validation_result" = Except.ok () := rfl

theorem callLog_log_token_lifecycle_event :
    callLog "log_token_lifecycle_event" = Except.ok () := rfl

theorem callLog_log_security_event :
    callLog "log_security_event" = Except.error (PyExn.nameError "log_security_event") := rfl

theorem dictGet_map_replace (m : Claims) (k : String) (v : CVal)
    (h : (dictGet m k).isSome) :
    dictGet (m.map (fun p => if p.1 = k then (k, v) else p)) k = some v := by
  induction m with
  | nil => simp [dictGet] at h
  | cons p rest ih =>
      by_cases hp : p.1 = k
      · simp [dictGet, hp]
      · have h1 : (dictGet rest k).isSome := by simpa [dictGet, hp] using h
        simp [dictGet, hp, ih h1]

theorem dictGet_map_replace_ne (m : Claims) (k k1 : String) (v : CVal)
    (h : k1 ≠ k) :
    dictGet (m.map (fun p => if p.1 = k then (k, v) else p)) k1 = dictGet m k1 := by
  have hkk1 : ¬ k = k1 := fun hk => h hk.symm
  induction m with
  | nil => rfl
  | cons p rest ih =>
      by_cases hp : p.1 = k
      · have hp1 : ¬ p.1 = k1 := by rw [hp]; exact hkk1
        simp [dictGet, hp, hkk1, hp1, ih]
      · by_cases hp2 : p.1 = k1
        · simp [dictGet, hp, hp2, h]
        · simp [dictGet, hp, hp2, ih]

theorem dictGet_append_single (m : Claims) (k : String) (v : CVal)
    (h : dictGet m k = none) :
    dictGet (m ++ [(k, v)]) k = some v := by
  induction m with
  | nil => simp [dictGet]
  | cons p rest ih =>
      by_cases hp : p.1 = k
      · simp [dictGet, hp] at h
      · have h1 : dictGet rest k = none := by simpa [dictGet, hp] using h
        simp [dictGet, hp, ih h1]

theorem dictGet_append_single_ne (m : Claims) (k k1 : String) (v : CVal)
    (h : k1 ≠ k) :
    dictGet (m ++ [(k, v)]) k1 = dictGet m k1 := by
  have hkk1 : ¬ k = k1 := fun hk => h hk.symm
  induction m with
  | nil => simp [dictGet, hkk1]
  | cons p rest ih =>
      by_cases hp2 : p.1 = k1
      · simp [dictGet, hp2]
      · simp [dictGet, hp2, ih]

theorem dictGet_dictSet_self (m : Claims) (k : String) (v : CVal) :
    dictGet (dictSet m k v) k = some v := by
  unfold dictSet
  by_cases h : dictHas m k
  · simp only [h, if_true]
    exact dictGet_map_replace m k v (by simpa [dictHas] using h)
  · simp only [h, Bool.false_eq_true, if_false]
    refine dictGet_append_single m k v ?_
    have h1 : ¬ (dictGet m k).isSome = true := by simpa [dictHas] using h
    cases hg : dictGet m k with
    | none => rfl
    | some w => exact absurd (by simp [hg]) h1

theorem dictGet_dictSet_ne (m : Claims) (k k1 : String) (v : CVal)
    (h : k1 ≠ k) :
    dictGet (dictSet m k v) k1 = dictGet m k1 := by
  unfold dictSet
  by_cases hh : dictHas m k
  · simp only [hh, if_true]
    exact dictGet_map_replace_ne m k k1 v h
  · simp only [hh, Bool.false_eq_true, if_false]
    exact dictGet_append_single_ne m k k1 v h

theorem create_access_token_of_valid (now defaultTtl : Int) (secret : String)
    (data : Claims) (expires_delta : Option Int)
    (hs : checkSubject data = Except.ok ())
    (hr : checkRole data = Except.ok ()) :
    create_access_token now defaultTtl secret data expires_delta =
      Except.ok (TokenString.signed
        (tokenPayload now data (tokenExpiry now defaultTtl expires_delta)) secret) := by
  unfold create_access_token
  rw [hs, hr, callLog_log_operation, callLog_log_token_validation_result]

theorem verify_token_signed_eval (now : Int) (secret : String) (payload : Claims) :
    verify_token now secret (TokenString.signed payload secret) =
      match dictGet payload "exp" with
      | some (CVal.n exp_time) =>
          if exp_time = 0 then Except.ok (some payload)
          else if now ≥ exp_time then Except.ok none
          else Except.ok (some payload)
      | some (CVal.s v) =>
          if v.isEmpty then Except.ok (some payload)
          else Except.error (PyExn.nameError "log_security_event")
      | none => Except.ok (some payload) := by
  unfold verify_token verifyTokenTry
  simp only [TokenString.isEmptyStr, Bool.false_eq_true, if_false,
    TokenString.numParts, ne_eq, not_true_eq_false, jwtDecode, if_pos rfl]
  cases hg : dictGet payload "exp" with
  | none => simp [hg, verifySuccess, callLog_log_token_lifecycle_event]
  | some w =>
      cases w with
      | n e =>
          by_cases h0 : e = 0
          · simp [hg, h0, verifySuccess, callLog_log_token_lifecycle_event]
          · by_cases hge : now ≥ e
            · simp [hg, h0, hge, callLog_log_token_validation_result]
            · simp [hg, h0, hge, verifySuccess, callLog_log_token_lifecycle_event]
      | s v =>
          by_cases hv : v.isEmpty
          · simp [hg, hv, verifySuccess, callLog_log_token_lifecycle_event]
          · simp [hg, hv, verifyExceptBlock, callLog_log_token_validation_result,
              callLog_log_security_event]

/-! Claim theorems. -/

/-- C6: issuance validation.  The subject half of the claim holds: a present
`user_id` that is empty (or longer than 255 characters) makes
`create_access_token` raise the INVALID_SUBJECT `ValueError`, and a claims
set with a valid subject and a recognized role is issued without raising.
The role half fails as stated: for a present, unrecognized role the code
raises `NameError` — the rejection branch calls `log_security_event`, which
`security.py` never imports — so the intended INVALID_ROLE `ValueError` on
the next line is unreachable.  This theorem evaluates the code at all three
kinds of input. -/
theorem C6_issuance_validation :
    create_access_token 1000 3600 "k"
        [("user_id", CVal.s ""), ("role", CVal.s "user")] none =
      Except.error (PyExn.valueError
        "Invalid user_id: must be a non-empty string with max 255 characters") ∧
    create_access_token 1000 3600 "k"
        [("user_id", CVal.s "u"), ("role", CVal.s "moderator")] none =
      Except.error (PyExn.nameError "log_security_event") ∧
    create_access_token 1000 3600 "k"
        [("user_id", CVal.s "u"), ("role", CVal.s "admin")] none =
      Except.ok (TokenString.signed
        [("user_id", CVal.s "u"), ("role", CVal.s "admin"),
         ("exp", CVal.n 4600), ("iat", CVal.n 1000), ("nbf", CVal.n 1000)] "k") :=
  ⟨rfl, rfl, rfl⟩

/-- C9: totality of `verify_token`.  The claim fails on the code: every
failure-logging path of `verify_token` calls the unimported
`log_security_event`, and so do both of its own `except` handlers, so an
empty token, a token with the wrong number of dot-separated segments, a
garbage three-segment token, and a token signed under a different secret all
make `verify_token` propagate `NameError` to its caller (the repository's own
`test_verify_invalid_token` expects `None` for `"invalid.token.string"`).
This theorem evaluates the code at those four inputs. -/
theorem C9_verify_token_raises :
    verify_token 1000 "k" (TokenString.raw "") =
      Except.error (PyExn.nameError "log_security_event") ∧
    verify_token 1000 "k" (TokenString.raw "garbage") =
      Except.error (PyExn.nameError "log_security_event") ∧
    verify_token 1000 "k" (TokenString.raw "invalid.token.string") =
      Except.error (PyExn.nameError "log_security_event") ∧
    verify_token 1000 "k" (TokenString.signed [("user_id", CVal.s "u")] "other") =
      Except.error (PyExn.nameError "log_security_event") :=
  ⟨rfl, rfl, rfl, rfl⟩

theorem dictGet_tokenPayload_exp (now : Int) (data : Claims) (e : Int) :
    dictGet (tokenPayload now data e) "exp" = some (CVal.n e) := by
  unfold tokenPayload
  rw [dictGet_dictSet_ne _ _ _ _ (by decide), dictGet_dictSet_ne _ _ _ _ (by decide),
    dictGet_dictSet_self]

theorem dictGet_tokenPayload_iat (now : Int) (data : Claims) (e : Int) :
    dictGet (tokenPayload now data e) "iat" = some (CVal.n now) := by
  unfold tokenPayload
  rw [dictGet_dictSet_ne _ _ _ _ (by decide), dictGet_dictSet_self]

theorem dictGet_tokenPayload_nbf (now : Int) (data : Claims) (e : Int) :
    dictGet (tokenPayload now data e) "nbf" = some (CVal.n now) := by
  unfold tokenPayload
  rw [dictGet_dictSet_self]

theorem dictGet_tokenPayload_other (now : Int) (data : Claims) (e : Int)
    (k : String) (h1 : k ≠ "exp") (h2 : k ≠ "iat") (h3 : k ≠ "nbf") :
    dictGet (tokenPayload now data e) k = dictGet data k := by
  unfold tokenPayload
  rw [dictGet_dictSet_ne _ _ _ _ h3, dictGet_dictSet_ne _ _ _ _ h2,
    dictGet_dictSet_ne _ _ _ _ h1]

theorem create_access_token_ok_shape (now defaultTtl : Int) (secret : String)
    (data : Claims) (expires_delta : Option Int) (tok : TokenString)
    (h : create_access_token now defaultTtl secret data expires_delta = Except.ok tok) :
    tok = TokenString.signed
      (tokenPayload now data (tokenExpiry now defaultTtl expires_delta)) secret := by
  unfold create_access_token at h
  cases hs : checkSubject data with
  | error e => rw [hs] at h; exact absurd h (by simp)
  | ok u =>
      cases u
      rw [hs] at h
      cases hr : checkRole data with
      | error e => rw [hr] at h; exact absurd h (by simp)
      | ok u =>
          cases u
          rw [hr, callLog_log_operation, callLog_log_token_validation_result] at h
          injection h with h1
          exact h1.symm

/-- C4 counterexample: the claim states that `verify_token` and
`validate_token_not_expired` differ on exactly the missing-`expires_at` case,
but they also differ on a payload that does carry `expires_at`, with value 0:
the truthiness test `if exp_time:` makes `verify_token` skip the temporal
check and return the payload, while the helper reports it as expired. -/
theorem C4_counterexample :
    dictGet [("user_id", CVal.s "u"), ("exp", CVal.n 0)] "exp" = some (CVal.n 0) ∧
    verify_token 5 "secret"
        (TokenString.signed [("user_id", CVal.s "u"), ("exp", CVal.n 0)] "secret") =
      Except.ok (some [("user_id", CVal.s "u"), ("exp", CVal.n 0)]) ∧
    validate_token_not_expired 5 [("user_id", CVal.s "u"), ("exp", CVal.n 0)] =
      Except.ok false :=
  ⟨rfl, rfl, rfl⟩

/-- C4 (amended): `verify_token` treats a well-signed payload with no
`expires_at` as valid, while `validate_token_not_expired` reports such a
payload as expired; the two policies differ on the missing-`expires_at` case
and additionally on a zero (falsy) `expires_at`, which `verify_token` also
skips; for every nonzero numeric `expires_at` the two checks agree. -/
theorem C4_expiry_policy_mismatch (now : Int) (secret : String) (payload : Claims) :
    (dictGet payload "exp" = none →
      verify_token now secret (TokenString.signed payload secret) =
        Except.ok (some payload) ∧
      validate_token_not_expired now payload = Except.ok false) ∧
    (dictGet payload "exp" = some (CVal.n 0) → 0 ≤ now →
      verify_token now secret (TokenString.signed payload secret) =
        Except.ok (some payload) ∧
      validate_token_not_expired now payload = Except.ok false) ∧
    (∀ e : Int, dictGet payload "exp" = some (CVal.n e) → e ≠ 0 →
      ((verify_token now secret (TokenString.signed payload secret) =
          Except.ok (some payload) ↔
        validate_token_not_expired now payload = Except.ok true) ∧
       (verify_token now secret (TokenString.signed payload secret) =
          Except.ok none ↔
        validate_token_not_expired now payload = Except.ok false))) := by
  refine ⟨?_, ?_, ?_⟩
  · intro h
    rw [verify_token_signed_eval, h]
    unfold validate_token_not_expired
    rw [h]
    exact ⟨rfl, rfl⟩
  · intro h hnow
    rw [verify_token_signed_eval, h]
    unfold validate_token_not_expired
    rw [h]
    constructor
    · simp
    · simp only [Except.ok.injEq, decide_eq_false_iff_not, not_lt]
      exact hnow
  · intro e h he
    rw [verify_token_signed_eval, h]
    unfold validate_token_not_expired
    rw [h]
    by_cases hge : now ≥ e
    · simp only [he, if_false, hge, if_true, if_pos, ge_iff_le]
      constructor
      · constructor
        · intro hx
          simp [if_pos (show e ≤ now from hge), he] at hx
        · intro hx
          simp at hx
          omega
      · constructor
        · intro _
          simp only [Except.ok.injEq, decide_eq_false_iff_not, not_lt]
          exact hge
        · intro _
          simp [if_pos (show e ≤ now from hge), he]
    · simp only [he, if_false, ge_iff_le]
      constructor
      · constructor
        · intro _
          simp only [Except.ok.injEq, decide_eq_true_eq]
          omega
        · intro _
          simp [he, if_neg (show ¬ e ≤ now from fun hc => hge hc)]
      · constructor
        · intro hx
          simp [he, if_neg (show ¬ e ≤ now from fun hc => hge hc)] at hx
        · intro hx
          simp only [Except.ok.injEq, decide_eq_false_iff_not, not_lt] at hx
          omega

/-- Witness for C4 (amended): concrete instances of the missing-`exp` case and
of the agreement on a nonzero `exp`. -/
theorem C4_expiry_policy_mismatch_witness :
    (verify_token 50 "s" (TokenString.signed [("user_id", CVal.s "u")] "s") =
        Except.ok (some [("user_id", CVal.s "u")]) ∧
      validate_token_not_expired 50 [("user_id", CVal.s "u")] = Except.ok false) ∧
    (verify_token 50 "s" (TokenString.signed [("exp", CVal.n 99)] "s") =
        Except.ok (some [("exp", CVal.n 99)]) ↔
      validate_token_not_expired 50 [("exp", CVal.n 99)] = Except.ok true) :=
  ⟨(C4_expiry_policy_mismatch 50 "s" [("user_id", CVal.s "u")]).1 rfl,
    ((C4_expiry_policy_mismatch 50 "s" [("exp", CVal.n 99)]).2.2 99 rfl
      (by decide)).1⟩

/-- C5 counterexample: the claim states that for every token whose decoded
claims carry `expires_at`, `verify_token` fails exactly when
`now >= expires_at`.  A well-signed token whose claims carry
`expires_at = 0` refutes it: at `now = 7 >= 0` the truthiness test
`if exp_time:` skips the temporal check and the payload is returned. -/
theorem C5_counterexample :
    dictGet [("exp", CVal.n 0)] "exp" = some (CVal.n 0) ∧
    (7 : Int) ≥ 0 ∧
    verify_token 7 "k" (TokenString.signed [("exp", CVal.n 0)] "k") =
      Except.ok (some [("exp", CVal.n 0)]) :=
  ⟨rfl, by decide, rfl⟩

/-- C5 (amended): for every well-signed token whose decoded claims carry a
**nonzero** `expires_at`, `verify_token` fails (returns `None` through the
EXPIRED branch) exactly when `now >= expires_at`; a zero `expires_at` is
skipped by the truthiness test and such a token never expires at this check.
Consequently a token issued with `ttl = -1s` at instant `t0` (with `t0 /= 1`,
so that the stored expiry `t0 - 1` is nonzero) is already expired at the
instant of issuance, and a token issued with `ttl = +1h` (with
`t0 + 3600 /= 0`) verifies successfully at every instant strictly before
`t0 + 3600` and fails from `t0 + 3600` onward. -/
theorem C5_expiry_boundary :
    (∀ (now : Int) (secret : String) (payload : Claims) (e : Int),
      dictGet payload "exp" = some (CVal.n e) → e ≠ 0 →
      (verify_token now secret (TokenString.signed payload secret) =
          Except.ok none ↔ now ≥ e)) ∧
    (∀ (t0 defaultTtl : Int) (secret : String) (data : Claims) (tok : TokenString),
      create_access_token t0 defaultTtl secret data (some (-1)) = Except.ok tok →
      t0 ≠ 1 →
      verify_token t0 secret tok = Except.ok none) ∧
    (∀ (t0 defaultTtl tv : Int) (secret : String) (data : Claims) (tok : TokenString),
      create_access_token t0 defaultTtl secret data (some 3600) = Except.ok tok →
      t0 + 3600 ≠ 0 →
      ((verify_token tv secret tok =
          Except.ok (some (tokenPayload t0 data (t0 + 3600))) ↔ tv < t0 + 3600) ∧
       (verify_token tv secret tok = Except.ok none ↔ tv ≥ t0 + 3600))) := by
  have hgen : ∀ (now : Int) (secret : String) (payload : Claims) (e : Int),
      dictGet payload "exp" = some (CVal.n e) → e ≠ 0 →
      (verify_token now secret (TokenString.signed payload secret) =
          Except.ok none ↔ now ≥ e) := by
    intro now secret payload e h he
    rw [verify_token_signed_eval, h]
    by_cases hge : now ≥ e
    · simp [he, if_pos (show e ≤ now from hge)]
      omega
    · simp [he, if_neg (show ¬ e ≤ now from fun hc => hge hc)]
      omega
  have hsome : ∀ (now : Int) (secret : String) (payload : Claims) (e : Int),
      dictGet payload "exp" = some (CVal.n e) → e ≠ 0 →
      (verify_token now secret (TokenString.signed payload secret) =
          Except.ok (some payload) ↔ now < e) := by
    intro now secret payload e h he
    rw [verify_token_signed_eval, h]
    by_cases hge : now ≥ e
    · simp [he, if_pos (show e ≤ now from hge)]
      omega
    · simp [he, if_neg (show ¬ e ≤ now from fun hc => hge hc)]
      omega
  refine ⟨hgen, ?_, ?_⟩
  · intro t0 defaultTtl secret data tok h ht0
    have hshape := create_access_token_ok_shape _ _ _ _ _ _ h
    have hE : tokenExpiry t0 defaultTtl (some (-1)) = t0 + (-1) := by
      simp [tokenExpiry]
    rw [hE] at hshape
    subst hshape
    exact (hgen t0 secret _ (t0 + (-1))
      (dictGet_tokenPayload_exp t0 data (t0 + (-1))) (by omega)).mpr (by omega)
  · intro t0 defaultTtl tv secret data tok h hE0
    have hshape := create_access_token_ok_shape _ _ _ _ _ _ h
    have hE : tokenExpiry t0 defaultTtl (some 3600) = t0 + 3600 := by
      simp [tokenExpiry]
    rw [hE] at hshape
    subst hshape
    constructor
    · rw [hsome tv secret _ (t0 + 3600)
        (dictGet_tokenPayload_exp t0 data (t0 + 3600)) hE0]
    · rw [hgen tv secret _ (t0 + 3600)
        (dictGet_tokenPayload_exp t0 data (t0 + 3600)) hE0]

/-- Witness for C5 (amended): concrete instances — a plain nonzero expiry, a
`ttl = -1s` token expired at issuance, and a `ttl = +1h` token checked after
its expiry instant. -/
theorem C5_expiry_boundary_witness :
    verify_token 10 "s" (TokenString.signed [("exp", CVal.n 3)] "s") =
      Except.ok none ∧
    verify_token 100 "s"
        (TokenString.signed (tokenPayload 100 [("user_id", CVal.s "a")] 99) "s") =
      Except.ok none ∧
    verify_token 4000 "s"
        (TokenString.signed (tokenPayload 100 [("user_id", CVal.s "a")] 3700) "s") =
      Except.ok none :=
  ⟨(C5_expiry_boundary.1 10 "s" [("exp", CVal.n 3)] 3 rfl (by decide)).mpr (by decide),
   C5_expiry_boundary.2.1 100 3600 "s" [("user_id", CVal.s "a")] _ rfl (by decide),
   ((C5_expiry_boundary.2.2 100 3600 4000 "s" [("user_id", CVal.s "a")] _ rfl
      (by decide)).2).mpr (by decide)⟩

/-- C7: round trip.  For every claims set that passes issuance validation and
carries none of the reserved keys `exp`, `iat`, `nbf`, issuing a token and
verifying it before its expiry instant succeeds and returns a claims set
containing every key-value pair of the input plus the three reserved temporal
fields `exp` (expires_at), `iat` (issued_at) and `nbf` (not_before). -/
theorem C7_round_trip (now defaultTtl tv : Int) (secret : String) (data : Claims)
    (expires_delta : Option Int)
    (hs : checkSubject data = Except.ok ())
    (hr : checkRole data = Except.ok ())
    (hexp : dictGet data "exp" = none)
    (hiat : dictGet data "iat" = none)
    (hnbf : dictGet data "nbf" = none)
    (hfresh : tv < tokenExpiry now defaultTtl expires_delta) :
    create_access_token now defaultTtl secret data expires_delta =
      Except.ok (TokenString.signed
        (tokenPayload now data (tokenExpiry now defaultTtl expires_delta)) secret) ∧
    verify_token tv secret (TokenString.signed
        (tokenPayload now data (tokenExpiry now defaultTtl expires_delta)) secret) =
      Except.ok (some (tokenPayload now data (tokenExpiry now defaultTtl expires_delta))) ∧
    (∀ k v, dictGet data k = some v →
      dictGet (tokenPayload now data (tokenExpiry now defaultTtl expires_delta)) k =
        some v) ∧
    dictGet (tokenPayload now data (tokenExpiry now defaultTtl expires_delta)) "exp" =
      some (CVal.n (tokenExpiry now defaultTtl expires_delta)) ∧
    dictGet (tokenPayload now data (tokenExpiry now defaultTtl expires_delta)) "iat" =
      some (CVal.n now) ∧
    dictGet (tokenPayload now data (tokenExpiry now defaultTtl expires_delta)) "nbf" =
      some (CVal.n now) := by
  refine ⟨create_access_token_of_valid now defaultTtl secret data expires_delta hs hr,
    ?_, ?_, dictGet_tokenPayload_exp now data _, dictGet_tokenPayload_iat now data _,
    dictGet_tokenPayload_nbf now data _⟩
  · rw [verify_token_signed_eval, dictGet_tokenPayload_exp]
    by_cases h0 : tokenExpiry now defaultTtl expires_delta = 0
    · simp [h0]
    · simp [h0, if_neg (show ¬ tokenExpiry now defaultTtl expires_delta ≤ tv from
        fun hc => absurd hfresh (by omega))]
  · intro k v hk
    have h1 : k ≠ "exp" := fun he => by rw [he, hexp] at hk; exact Option.noConfusion hk
    have h2 : k ≠ "iat" := fun he => by rw [he, hiat] at hk; exact Option.noConfusion hk
    have h3 : k ≠ "nbf" := fun he => by rw [he, hnbf] at hk; exact Option.noConfusion hk
    rw [dictGet_tokenPayload_other now data _ k h1 h2 h3]
    exact hk

/-- Witness for C7: a concrete claims set with a custom `team` key, issued at
instant 1000 with the default TTL 3600 and verified at instant 2000. -/
theorem C7_round_trip_witness :
    create_access_token 1000 3600 "k"
        [("user_id", CVal.s "alice"), ("role", CVal.s "user"), ("team", CVal.s "blue")]
        none =
      Except.ok (TokenString.signed
        (tokenPayload 1000
          [("user_id", CVal.s "alice"), ("role", CVal.s "user"), ("team", CVal.s "blue")]
          4600) "k") ∧
    verify_token 2000 "k" (TokenString.signed
        (tokenPayload 1000
          [("user_id", CVal.s "alice"), ("role", CVal.s "user"), ("team", CVal.s "blue")]
          4600) "k") =
      Except.ok (some (tokenPayload 1000
        [("user_id", CVal.s "alice"), ("role", CVal.s "user"), ("team", CVal.s "blue")]
        4600)) ∧
    dictGet (tokenPayload 1000
        [("user_id", CVal.s "alice"), ("role", CVal.s "user"), ("team", CVal.s "blue")]
        4600) "team" = some (CVal.s "blue") ∧
    dictGet (tokenPayload 1000
        [("user_id", CVal.s "alice"), ("role", CVal.s "user"), ("team", CVal.s "blue")]
        4600) "exp" = some (CVal.n 4600) := by
  have H := C7_round_trip 1000 3600 2000 "k"
    [("user_id", CVal.s "alice"), ("role", CVal.s "user"), ("team", CVal.s "blue")]
    none rfl rfl rfl rfl rfl (by decide)
  exact ⟨H.1, H.2.1, H.2.2.1 "team" (CVal.s "blue") rfl, H.2.2.2.1⟩

/-- C1: the auth gate never rejects anything.  The claim states that a
request to a non-allow-listed path with no `Authorization` header is rejected
401 / MISSING_TOKEN before any handler logic, but `public_routes` contains
`"/"` and the allow-list check is `path.startswith(route)`, so every inbound
HTTP request path (every such path starts with `"/"`) is classified as
public and forwarded straight to the handler: the whole rejection branch of
the middleware is unreachable.  This contradicts the intent visible in the
code (the comment marks `"/"` as "Root endpoint (public)") and the
repository's own `test_401_responses.py`. -/
theorem C1_authgate_never_rejects (verify : String → Option Claims) (now : Int)
    (req : MwRequest) (h : pyStartsWith req.path "/" = true) :
    JWTMiddleware.dispatch verify now req = MwOutcome.forwarded := by
  have hp : is_public_route req.path = true := by
    simp [is_public_route, public_routes, h]
  simp [JWTMiddleware.dispatch, hp]

/-- Witness for C1: a `GET /api/v1/tasks` request carrying no `Authorization`
header is forwarded to the handler instead of being rejected 401. -/
theorem C1_authgate_never_rejects_witness :
    JWTMiddleware.dispatch (fun _ => none) 0
      { path := "/api/v1/tasks", method := "GET", authHeader := none } =
      MwOutcome.forwarded :=
  C1_authgate_never_rejects (fun _ => none) 0
    { path := "/api/v1/tasks", method := "GET", authHeader := none } (by decide)

/-- C2: ownership guard on task mutations.  For update, toggle and delete —
at the route layer (phase-III) and the service layer (phase-IV) — a missing
task yields NOT_FOUND (404 at the route; `None`/`False` at the service)
before ownership is evaluated; an existing task owned by someone else yields
FORBIDDEN (403 at the route; `PermissionError` at the service) with the
store unchanged; and the principal role is never consulted, so the same
holds for `role = "admin"` (no admin bypass). -/
theorem C2_ownership_guard :
    (∀ (db : Db) (p : Principal) (task_id : Nat) (u : TaskUpdate),
      validate_task_update u = none →
      TaskService.get_task_by_id db task_id = none →
      update_task_route db p task_id u =
        (RouteResult.httpError 404
          ("Task with id " ++ toString task_id ++ " not found"), db)) ∧
    (∀ (db : Db) (p : Principal) (task_id : Nat),
      TaskService.get_task_by_id db task_id = none →
      toggle_task_route db p task_id =
        (RouteResult.httpError 404
          ("Task with id " ++ toString task_id ++ " not found"), db)) ∧
    (∀ (db : Db) (p : Principal) (task_id : Nat),
      TaskService.get_task_by_id db task_id = none →
      delete_task_route db p task_id =
        (RouteResult.httpError 404
          ("Task with id " ++ toString task_id ++ " not found"), db)) ∧
    (∀ (db : Db) (p : Principal) (task_id : Nat) (u : TaskUpdate) (t : TaskRow),
      validate_task_update u = none →
      TaskService.get_task_by_id db task_id = some t →
      t.user_id ≠ p.id →
      update_task_route db p task_id u =
        (RouteResult.httpError 403 "You can only update your own tasks", db)) ∧
    (∀ (db : Db) (p : Principal) (task_id : Nat) (t : TaskRow),
      TaskService.get_task_by_id db task_id = some t →
      t.user_id ≠ p.id →
      toggle_task_route db p task_id =
        (RouteResult.httpError 403
          "You can only toggle completion status of your own tasks", db)) ∧
    (∀ (db : Db) (p : Principal) (task_id : Nat) (t : TaskRow),
      TaskService.get_task_by_id db task_id = some t →
      t.user_id ≠ p.id →
      delete_task_route db p task_id =
        (RouteResult.httpError 403 "You can only delete your own tasks", db)) ∧
    (∀ (db : Db) (i r1 r2 : String) (task_id : Nat) (u : TaskUpdate),
      update_task_route db { id := i, role := r1 } task_id u =
        update_task_route db { id := i, role := r2 } task_id u) ∧
    (∀ (db : Db) (i r1 r2 : String) (task_id : Nat),
      toggle_task_route db { id := i, role := r1 } task_id =
        toggle_task_route db { id := i, role := r2 } task_id) ∧
    (∀ (db : Db) (i r1 r2 : String) (task_id : Nat),
      delete_task_route db { id := i, role := r1 } task_id =
        delete_task_route db { id := i, role := r2 } task_id) ∧
    (∀ (db : Db) (task_id : Nat) (cu : Option String) (u : TaskUpdate),
      TaskService.get_task_by_id db task_id = none →
      TaskService.update_task db task_id u cu = Except.ok (none, db) ∧
      TaskService.delete_task db task_id cu = Except.ok (false, db) ∧
      TaskService.toggle_task_completion db task_id cu = Except.ok (none, db)) ∧
    (∀ (db : Db) (task_id : Nat) (cu : Option String) (u : TaskUpdate) (t : TaskRow),
      TaskService.get_task_by_id db task_id = some t →
      strTruthy cu = true →
      some t.user_id ≠ cu →
      TaskService.update_task db task_id u cu =
        Except.error (PyExn.permissionError "User does not own task") ∧
      TaskService.delete_task db task_id cu =
        Except.error (PyExn.permissionError "User does not own task") ∧
      TaskService.toggle_task_completion db task_id cu =
        Except.error (PyExn.permissionError "User does not own task")) := by
  refine ⟨?_, ?_, ?_, ?_, ?_, ?_, ?_, ?_, ?_, ?_, ?_⟩
  · intro db p task_id u hv hget
    unfold update_task_route
    rw [hv, hget]
  · intro db p task_id hget
    unfold toggle_task_route
    rw [hget]
  · intro db p task_id hget
    unfold delete_task_route
    rw [hget]
  · intro db p task_id u t hv hget hne
    unfold update_task_route
    rw [hv, hget]
    simp only [if_pos hne]
  · intro db p task_id t hget hne
    unfold toggle_task_route
    rw [hget]
    simp only [if_pos hne]
  · intro db p task_id t hget hne
    unfold delete_task_route
    rw [hget]
    simp only [if_pos hne]
  · intro db i r1 r2 task_id u
    rfl
  · intro db i r1 r2 task_id
    rfl
  · intro db i r1 r2 task_id
    rfl
  · intro db task_id cu u hget
    refine ⟨?_, ?_, ?_⟩
    · unfold TaskService.update_task
      rw [hget]
    · unfold TaskService.delete_task
      rw [hget]
    · unfold TaskService.toggle_task_completion
      rw [hget]
  · intro db task_id cu u t hget htr hne
    refine ⟨?_, ?_, ?_⟩
    · unfold TaskService.update_task
      rw [hget]
      simp only [if_pos (show strTruthy cu = true ∧ some t.user_id ≠ cu from ⟨htr, hne⟩)]
    · unfold TaskService.delete_task
      rw [hget]
      simp only [if_pos (show strTruthy cu = true ∧ some t.user_id ≠ cu from ⟨htr, hne⟩)]
    · unfold TaskService.toggle_task_completion
      rw [hget]
      simp only [if_pos (show strTruthy cu = true ∧ some t.user_id ≠ cu from ⟨htr, hne⟩)]

/-- Witness for C2: one task owned by `alice`; the principal is `bob` with
role `admin`.  A missing id yields 404, an existing foreign task yields 403
with the store unchanged, and the service layer raises `PermissionError`. -/
theorem C2_ownership_guard_witness :
    update_task_route
        { tasks := [{ id := 1, title := "Buy milk", description := none,
                      completed := false, user_id := "alice",
                      created_at := 0, updated_at := 0 }], nextId := 2 }
        { id := "bob", role := "admin" } 2
        { title := none, description := none, completed := none } =
      (RouteResult.httpError 404 ("Task with id " ++ toString 2 ++ " not found"),
        { tasks := [{ id := 1, title := "Buy milk", description := none,
                      completed := false, user_id := "alice",
                      created_at := 0, updated_at := 0 }], nextId := 2 }) ∧
    update_task_route
        { tasks := [{ id := 1, title := "Buy milk", description := none,
                      completed := false, user_id := "alice",
                      created_at := 0, updated_at := 0 }], nextId := 2 }
        { id := "bob", role := "admin" } 1
        { title := none, description := none, completed := none } =
      (RouteResult.httpError 403 "You can only update your own tasks",
        { tasks := [{ id := 1, title := "Buy milk", description := none,
                      completed := false, user_id := "alice",
                      created_at := 0, updated_at := 0 }], nextId := 2 }) ∧
    toggle_task_route
        { tasks := [{ id := 1, title := "Buy milk", description := none,
                      completed := false, user_id := "alice",
                      created_at := 0, updated_at := 0 }], nextId := 2 }
        { id := "bob", role := "admin" } 1 =
      (RouteResult.httpError 403
          "You can only toggle completion status of your own tasks",
        { tasks := [{ id := 1, title := "Buy milk", description := none,
                      completed := false, user_id := "alice",
                      created_at := 0, updated_at := 0 }], nextId := 2 }) ∧
    delete_task_route
        { tasks := [{ id := 1, title := "Buy milk", description := none,
                      completed := false, user_id := "alice",
                      created_at := 0, updated_at := 0 }], nextId := 2 }
        { id := "bob", role := "admin" } 1 =
      (RouteResult.httpError 403 "You can only delete your own tasks",
        { tasks := [{ id := 1, title := "Buy milk", description := none,
                      completed := false, user_id := "alice",
                      created_at := 0, updated_at := 0 }], nextId := 2 }) ∧
    TaskService.delete_task
        { tasks := [{ id := 1, title := "Buy milk", description := none,
                      completed := false, user_id := "alice",
                      created_at := 0, updated_at := 0 }], nextId := 2 }
        2 (some "bob") =
      Except.ok (false,
        { tasks := [{ id := 1, title := "Buy milk", description := none,
                      completed := false, user_id := "alice",
                      created_at := 0, updated_at := 0 }], nextId := 2 }) ∧
    TaskService.toggle_task_completion
        { tasks := [{ id := 1, title := "Buy milk", description := none,
                      completed := false, user_id := "alice",
                      created_at := 0, updated_at := 0 }], nextId := 2 }
        1 (some "bob") =
      Except.error (PyExn.permissionError "User does not own task") :=
  ⟨C2_ownership_guard.1 _ _ 2 _ rfl rfl,
   C2_ownership_guard.2.2.2.1 _ _ 1 _
     { id := 1, title := "Buy milk", description := none, completed := false,
       user_id := "alice", created_at := 0, updated_at := 0 } rfl rfl (by decide),
   C2_ownership_guard.2.2.2.2.1 _ _ 1
     { id := 1, title := "Buy milk", description := none, completed := false,
       user_id := "alice", created_at := 0, updated_at := 0 } rfl (by decide),
   C2_ownership_guard.2.2.2.2.2.1 _ _ 1
     { id := 1, title := "Buy milk", description := none, completed := false,
       user_id := "alice", created_at := 0, updated_at := 0 } rfl (by decide),
   (C2_ownership_guard.2.2.2.2.2.2.2.2.2.1
     { tasks := [{ id := 1, title := "Buy milk", description := none,
                   completed := false, user_id := "alice",
                   created_at := 0, updated_at := 0 }], nextId := 2 }
     2 (some "bob")
     { title := none, description := none, completed := none } rfl).2.1,
   (C2_ownership_guard.2.2.2.2.2.2.2.2.2.2
     { tasks := [{ id := 1, title := "Buy milk", description := none,
                   completed := false, user_id := "alice",
                   created_at := 0, updated_at := 0 }], nextId := 2 }
     1 (some "bob")
     { title := none, description := none, completed := none }
     { id := 1, title := "Buy milk", description := none, completed := false,
       user_id := "alice", created_at := 0, updated_at := 0 }
     rfl rfl (by decide)).2.2⟩

/-- C3: the stored owner is always the authenticated principal.  The create
route overwrites `task_create.user_id` with the authenticated user id before
validating and storing, so (1) the payload-supplied owner value never
influences the outcome at all — two requests differing only in the payload
`user_id` are handled identically — and (2) every request either fails
validation with a 400 and an unchanged store, or appends exactly one task
whose `user_id` equals the principal id. -/
theorem C3_owner_from_principal :
    (∀ (db : Db) (now : Int) (p : Principal) (tc : TaskCreate) (v1 v2 : Option String),
      create_task_route db now p { tc with user_id := v1 } =
        create_task_route db now p { tc with user_id := v2 }) ∧
    (∀ (db : Db) (now : Int) (p : Principal) (tc : TaskCreate),
      (∃ detail, create_task_route db now p tc =
        (RouteResult.httpError 400 detail, db)) ∨
      (∃ t, create_task_route db now p tc =
        (RouteResult.ok t, { tasks := db.tasks ++ [t], nextId := db.nextId + 1 }) ∧
        t.user_id = p.id)) := by
  constructor
  · intro db now p tc v1 v2
    rfl
  · intro db now p tc
    cases hv : validate_task_create { tc with user_id := some p.id } with
    | some detail =>
        left
        exact ⟨detail, by unfold create_task_route; simp only [hv]⟩
    | none =>
        right
        refine ⟨{ id := db.nextId, title := tc.title, description := tc.description,
                  completed := tc.completed, user_id := p.id,
                  created_at := now, updated_at := now }, ?_, rfl⟩
        unfold create_task_route
        simp only [hv]
        rfl

theorem firstTaskWithId_eq_id (ts : List TaskRow) (i : Nat) (t : TaskRow)
    (h : firstTaskWithId ts i = some t) : t.id = i := by
  induction ts with
  | nil => exact Option.noConfusion h
  | cons x rest ih =>
      by_cases hx : x.id = i
      · have hxt : x = t := by simpa [firstTaskWithId, hx] using h
        rw [← hxt]
        exact hx
      · exact ih (by simpa [firstTaskWithId, hx] using h)

theorem firstTaskWithId_map_write (ts : List TaskRow) (i : Nat) (t1 : TaskRow)
    (h1 : t1.id = i) (u : TaskRow) (h : firstTaskWithId ts i = some u) :
    firstTaskWithId (ts.map (fun x => if x.id = i then t1 else x)) i = some t1 := by
  induction ts with
  | nil => exact Option.noConfusion h
  | cons x rest ih =>
      by_cases hx : x.id = i
      · simp [firstTaskWithId, hx, h1]
      · have h2 : firstTaskWithId rest i = some u := by
          simpa [firstTaskWithId, hx] using h
        simp [firstTaskWithId, hx, ih h2]

/-- C10: toggling completion is an involution.  For an existing task owned by
the calling principal, one service call returns the task with exactly the
`completed` boolean flipped (title, description, user_id, id, created_at all
unchanged, as witnessed by the record update and the field equations below),
and a second call on the resulting store returns the original task. -/
theorem C10_toggle_involution (db : Db) (task_id : Nat) (pid : String) (t : TaskRow)
    (hfind : TaskService.get_task_by_id db task_id = some t)
    (hown : t.user_id = pid) :
    TaskService.toggle_task_completion db task_id (some pid) =
      Except.ok (some { t with completed := !t.completed },
        writeTask db task_id { t with completed := !t.completed }) ∧
    TaskService.toggle_task_completion
        (writeTask db task_id { t with completed := !t.completed }) task_id (some pid) =
      Except.ok (some t,
        writeTask (writeTask db task_id { t with completed := !t.completed })
          task_id t) ∧
    ({ t with completed := !t.completed }).completed = !t.completed ∧
    ({ t with completed := !t.completed }).title = t.title ∧
    ({ t with completed := !t.completed }).description = t.description ∧
    ({ t with completed := !t.completed }).user_id = t.user_id ∧
    ({ t with completed := !t.completed }).id = t.id ∧
    ({ t with completed := !t.completed }).created_at = t.created_at := by
  have hid : t.id = task_id := firstTaskWithId_eq_id db.tasks task_id t hfind
  have hnot1 : ¬ (strTruthy (some pid) = true ∧ some t.user_id ≠ some pid) :=
    fun hc => hc.2 (by rw [hown])
  have h2find : firstTaskWithId
      (db.tasks.map (fun x =>
        if x.id = task_id then { t with completed := !t.completed } else x))
      task_id = some { t with completed := !t.completed } :=
    firstTaskWithId_map_write db.tasks task_id { t with completed := !t.completed }
      hid t hfind
  have hnot2 : ¬ (strTruthy (some pid) = true ∧
      some ({ t with completed := !t.completed }).user_id ≠ some pid) :=
    fun hc => hc.2 (by simp [hown])
  refine ⟨?_, ?_, rfl, rfl, rfl, rfl, rfl, rfl⟩
  · unfold TaskService.toggle_task_completion
    rw [hfind]
    simp only [if_neg hnot1]
  · unfold TaskService.toggle_task_completion TaskService.get_task_by_id writeTask
    simp only []
    rw [h2find]
    simp only [if_neg hnot2]
    simp [Bool.not_not]

/-- Witness for C10: toggling the one task of `alice` twice returns it to its
original state. -/
theorem C10_toggle_involution_witness :
    TaskService.toggle_task_completion
        { tasks := [{ id := 1, title := "T", description := none,
                      completed := false, user_id := "alice",
                      created_at := 0, updated_at := 0 }], nextId := 2 }
        1 (some "alice") =
      Except.ok (some { id := 1, title := "T", description := none,
                        completed := true, user_id := "alice",
                        created_at := 0, updated_at := 0 },
        { tasks := [{ id := 1, title := "T", description := none,
                      completed := true, user_id := "alice",
                      created_at := 0, updated_at := 0 }], nextId := 2 }) ∧
    TaskService.toggle_task_completion
        { tasks := [{ id := 1, title := "T", description := none,
                      completed := true, user_id := "alice",
                      created_at := 0, updated_at := 0 }], nextId := 2 }
        1 (some "alice") =
      Except.ok (some { id := 1, title := "T", description := none,
                        completed := false, user_id := "alice",
                        created_at := 0, updated_at := 0 },
        { tasks := [{ id := 1, title := "T", description := none,
                      completed := false, user_id := "alice",
                      created_at := 0, updated_at := 0 }], nextId := 2 }) := by
  have H := C10_toggle_involution
    { tasks := [{ id := 1, title := "T", description := none,
                  completed := false, user_id := "alice",
                  created_at := 0, updated_at := 0 }], nextId := 2 }
    1 "alice"
    { id := 1, title := "T", description := none, completed := false,
      user_id := "alice", created_at := 0, updated_at := 0 }
    rfl rfl
  exact ⟨H.1, H.2.1⟩

theorem rateKey_ne (uid ep w1 w2 : String) (h : w1.length ≠ w2.length) :
    rateKey uid ep w1 ≠ rateKey uid ep w2 := by
  intro he
  have hl := congrArg String.length he
  simp only [rateKey, String.length_append] at hl
  omega

theorem zsetLookup_zsetWrite_ne (s : List (String × List ℚ)) (k k1 : String)
    (v : List ℚ) (h : k1 ≠ k) :
    zsetLookup (zsetWrite s k v) k1 = zsetLookup s k1 := by
  have hkk1 : ¬ k = k1 := fun hk => h hk.symm
  induction s with
  | nil => simp [zsetWrite, zsetLookup, hkk1]
  | cons p rest ih =>
      by_cases hp : p.1 = k
      · have hp1 : ¬ p.1 = k1 := by rw [hp]; exact hkk1
        simp [zsetWrite, zsetLookup, hp, hkk1, hp1]
      · by_cases hp2 : p.1 = k1
        · simp [zsetWrite, zsetLookup, hp, hp2, h]
        · simp [zsetWrite, zsetLookup, hp, hp2, ih]

theorem zsetLookup_double_write_ne (s : List (String × List ℚ)) (k k1 : String)
    (v1 v2 : List ℚ) (h : k1 ≠ k) :
    zsetLookup (zsetWrite (zsetWrite s k v1) k v2) k1 = zsetLookup s k1 := by
  rw [zsetLookup_zsetWrite_ne _ _ _ _ h, zsetLookup_zsetWrite_ne _ _ _ _ h]

theorem increment_counter_other_key (r : RedisState) (k k1 : String) (now w : ℚ)
    (h : k1 ≠ k) :
    zsetLookup ((increment_counter r k now w).2).store k1 = zsetLookup r.store k1 :=
  zsetLookup_double_write_ne r.store k k1 _ _ h

set_option maxRecDepth 100000 in
attribute [local semireducible] Rat.sub Rat.add Rat.mul Rat.inv in
/-- C8: the rate limiter.  A sentinel principal id (empty or `"unknown"`)
is admitted without touching any counter.  Otherwise the windows are
evaluated in the fixed order minute (60s / 100), hour (3600s / 1000), day
(86400s / 10000) with the default limits, each by evict-record-count; the
first window whose post-record count strictly exceeds its threshold blocks
the request and the coarser windows are not evaluated (their counters stay
untouched); when no threshold is exceeded the request is admitted.  With the
101 half-second-spaced requests of the last conjunct — all inside one
60-second window — the 101st request is the first one blocked. -/
theorem C8_rate_limiter :
    (∀ (r : RedisState) (ep : String) (now : ℚ) (L : Limits),
      is_rate_limited r "" ep now L = (false, r) ∧
      is_rate_limited r "unknown" ep now L = (false, r)) ∧
    (∀ (r : RedisState) (uid ep : String) (now : ℚ),
      ¬ (uid.isEmpty = true ∨ uid = "unknown") →
      (increment_counter r (rateKey uid ep "minute") now 60).1 > 100 →
      is_rate_limited r uid ep now default_limits =
        (true, (increment_counter r (rateKey uid ep "minute") now 60).2) ∧
      zsetLookup ((increment_counter r (rateKey uid ep "minute") now 60).2).store
          (rateKey uid ep "hour") = zsetLookup r.store (rateKey uid ep "hour") ∧
      zsetLookup ((increment_counter r (rateKey uid ep "minute") now 60).2).store
          (rateKey uid ep "day") = zsetLookup r.store (rateKey uid ep "day")) ∧
    (∀ (r : RedisState) (uid ep : String) (now : ℚ),
      ¬ (uid.isEmpty = true ∨ uid = "unknown") →
      (increment_counter r (rateKey uid ep "minute") now 60).1 ≤ 100 →
      (increment_counter (increment_counter r (rateKey uid ep "minute") now 60).2
          (rateKey uid ep "hour") now 3600).1 > 1000 →
      is_rate_limited r uid ep now default_limits =
        (true, (increment_counter
          (increment_counter r (rateKey uid ep "minute") now 60).2
          (rateKey uid ep "hour") now 3600).2) ∧
      zsetLookup ((increment_counter
          (increment_counter r (rateKey uid ep "minute") now 60).2
          (rateKey uid ep "hour") now 3600).2).store (rateKey uid ep "day") =
        zsetLookup r.store (rateKey uid ep "day")) ∧
    (∀ (r : RedisState) (uid ep : String) (now : ℚ),
      ¬ (uid.isEmpty = true ∨ uid = "unknown") →
      (increment_counter r (rateKey uid ep "minute") now 60).1 ≤ 100 →
      (increment_counter (increment_counter r (rateKey uid ep "minute") now 60).2
          (rateKey uid ep "hour") now 3600).1 ≤ 1000 →
      (increment_counter (increment_counter
          (increment_counter r (rateKey uid ep "minute") now 60).2
          (rateKey uid ep "hour") now 3600).2
          (rateKey uid ep "day") now 86400).1 ≤ 10000 →
      (is_rate_limited r uid ep now default_limits).1 = false) ∧
    (runRequests { store := [] } "alice" "/api/v1/tasks"
        ((List.range 101).map (fun i => (i : ℚ) / 2))).1 =
      List.replicate 100 false ++ [true] := by
  refine ⟨?_, ?_, ?_, ?_, ?_⟩
  · intro r ep now L
    constructor
    · unfold is_rate_limited
      rw [if_pos (show ("".isEmpty = true ∨ ("" : String) = "unknown") from by decide)]
    · unfold is_rate_limited
      rw [if_pos (show ("unknown".isEmpty = true ∨ ("unknown" : String) = "unknown")
        from Or.inr rfl)]
  · intro r uid ep now hsent hm
    refine ⟨?_, ?_, ?_⟩
    · unfold is_rate_limited
      simp only [if_neg hsent, default_limits]
      rw [if_pos hm]
    · exact increment_counter_other_key r _ _ now 60
        (rateKey_ne uid ep "hour" "minute" (by decide))
    · exact increment_counter_other_key r _ _ now 60
        (rateKey_ne uid ep "day" "minute" (by decide))
  · intro r uid ep now hsent hm hh
    have hmn : ¬ (increment_counter r (rateKey uid ep "minute") now 60).1 > 100 := by
      omega
    refine ⟨?_, ?_⟩
    · unfold is_rate_limited
      simp only [if_neg hsent, default_limits]
      rw [if_neg hmn, if_pos hh]
    · rw [increment_counter_other_key _ _ _ now 3600
        (rateKey_ne uid ep "day" "hour" (by decide)),
        increment_counter_other_key _ _ _ now 60
        (rateKey_ne uid ep "day" "minute" (by decide))]
  · intro r uid ep now hsent hm hh hd
    have hmn : ¬ (increment_counter r (rateKey uid ep "minute") now 60).1 > 100 := by
      omega
    have hhn : ¬ (increment_counter
        (increment_counter r (rateKey uid ep "minute") now 60).2
        (rateKey uid ep "hour") now 3600).1 > 1000 := by
      omega
    unfold is_rate_limited
    simp only [if_neg hsent, default_limits]
    rw [if_neg hmn, if_neg hhn]
    simp only [decide_eq_false_iff_not, gt_iff_lt, not_lt]
    exact hd
  · decide

set_option maxRecDepth 100000 in
attribute [local semireducible] Rat.sub Rat.add Rat.mul Rat.inv in
/-- Witness for C8: a principal whose minute window already holds 100
timestamps is blocked on the next request (the hour and day counters stay
untouched per the theorem), and a fresh principal on an empty store is
admitted. -/
theorem C8_rate_limiter_witness :
    is_rate_limited
        { store := [(rateKey "alice" "/t" "minute",
            (List.range 100).map (fun i => (i : ℚ) / 2))] }
        "alice" "/t" 50 default_limits =
      (true, (increment_counter
        { store := [(rateKey "alice" "/t" "minute",
            (List.range 100).map (fun i => (i : ℚ) / 2))] }
        (rateKey "alice" "/t" "minute") 50 60).2) ∧
    (is_rate_limited { store := [] } "bob" "/t" 0 default_limits).1 = false :=
  ⟨(C8_rate_limiter.2.1
      { store := [(rateKey "alice" "/t" "minute",
          (List.range 100).map (fun i => (i : ℚ) / 2))] }
      "alice" "/t" 50 (by decide) (by decide)).1,
   C8_rate_limiter.2.2.2.1 { store := [] } "bob" "/t" 0
     (by decide) (by decide) (by decide) (by decide)⟩
